import Mathlib

/-!
Shallow embedding of the tt-buda-demos model-demo scripts, covering the
DenseNet-121 X-ray demo (`cv_demos/densenet/pytorch_densenet_121_hf_xray.py`),
the FLAN-T5 generation demo (`nlp_demos/flan_t5/pytorch_flan_t5_generation.py`)
and the pytest harness under `tests/`.

Tensors are modelled at the shape level (`Shape`), except for the runtime's
output tensors, which are modelled as matrices of rational scores (`Mat`,
a list of rows) because the postprocessing zips labels against them.
External collaborators (detected devices, the downloaded sample image, the
device inference call, the text2text pipeline) are oracle parameters of the
embedded runners; everything the repository's own code does — configuration
writes, preprocessing, batching, the data-parallel combine, postprocessing,
the test-harness wiring — is translated directly from the source.
-/

namespace TTBudaDemos

/-- A tensor / ndarray shape: the list of its dimensions. -/
abbrev Shape := List Nat

/-- An output tensor, modelled as its list of rows of rational scores. -/
abbrev Mat := List (List ℚ)

/-- `pybuda._C.backend_api.BackendDevice`: the device-type enumeration.
Only `Wormhole_B0` is compared against by the demos; `Grayskull` stands for
any other detected device class. -/
inductive BackendDevice
  | Wormhole_B0
  | Grayskull
  deriving DecidableEq, Repr

/-- The process environment `os.environ`, as an association list of
environment-variable bindings (most recent binding first). -/
structure PEnv where
  vars : List (String × String)
  deriving DecidableEq, Repr

/-- `os.environ[k]` as an optional lookup: the first binding of `k`. -/
def envLookup (e : PEnv) (k : String) : Option String :=
  (e.vars.find? (fun p => p.1 == k)).map Prod.snd

/-- `os.environ.get(k, d)`: lookup with a default. -/
def envGetD (e : PEnv) (k d : String) : String :=
  (envLookup e k).getD d

/-- `os.environ[k] = v`: bind `k` to `v`, shadowing any previous binding. -/
def envSet (e : PEnv) (k v : String) : PEnv :=
  ⟨(k, v) :: e.vars.filter (fun p => p.1 != k)⟩

/-- The process-global compiler configuration object returned by
`pybuda.config._get_global_compiler_config()`; only the fields touched by
these two demos are modelled. -/
structure CompilerConfig where
  enable_tm_cpu_fallback : Bool := false
  enable_tvm_constant_prop : Bool := false
  enable_tvm_cpu_fallback : Bool := true
  cpu_fallback_ops : List String := []
  balancer_policy : Option String := none
  default_df_override : Option String := none
  default_dram_parameters : Option Bool := none
  input_queues_on_host : Bool := false
  amp_light : Bool := false
  deriving DecidableEq, Repr

/-- The process-wide mutable state a demo invocation reads and writes: the
environment and the global compiler configuration. -/
structure ProcState where
  env : PEnv
  cfg : CompilerConfig
  deriving DecidableEq, Repr

/-- A fresh process: empty environment, default compiler configuration. -/
def initState : ProcState := ⟨⟨[]⟩, {}⟩

/-- Observable external actions a demo run performs, in order. -/
inductive Event
  | deviceQuery
  | networkFetch (url : String)
  | modelLoad (name : String)
  | runInference (inputShape : Shape)
  | printOut
  deriving DecidableEq, Repr

/-- URL of the sample X-ray image downloaded by `get_input_img`. -/
def imgUrl : String :=
  "https://huggingface.co/spaces/torchxrayvision/torchxrayvision-classifier/resolve/main/16747_3_1.jpg"

/-- The message printed by `get_input_img` for an image of rank below 2. -/
def lowDimMsg : String := "error, dimension lower than 2 for image"

/-- Modelled from the spec: the external `xrv.datasets.normalize` is an
elementwise normalization, hence shape preserving. -/
def xrvNormalizeShape (s : Shape) : Shape := s

/-- numpy basic indexing `img[:, :, 0]`: drops axis 2 by selecting index 0
there; an `IndexError` when the array has rank below 3 or axis 2 is empty. -/
def npIndexThirdZero (s : Shape) : Except String Shape :=
  if h : 2 < s.length then
    if 0 < s.get ⟨2, h⟩ then Except.ok (s.take 2 ++ s.drop 3)
    else Except.error "IndexError: index 0 is out of bounds for axis 2"
  else Except.error "IndexError: too many indices for array"

/-- numpy indexing `img[None, :, :]`: prepends a new axis of size 1; the two
slices demand rank at least 2, otherwise an `IndexError` is raised. -/
def npNewAxisSliceSlice (s : Shape) : Except String Shape :=
  if 2 ≤ s.length then Except.ok (1 :: s)
  else Except.error "IndexError: too many indices for array"

/-- Modelled from the spec: the external transform
`XRayCenterCrop()` followed by `XRayResizer(224)` center-crops and resizes a
`(C, H, W)` array so its last two axes become 224×224. -/
def xrvCropResize224 (s : Shape) : Shape :=
  match s with
  | [c, _, _] => [c, 224, 224]
  | t => t

/-- `get_input_img` of `pytorch_densenet_121_hf_xray.py`, at the shape level:
normalize the downloaded image, reduce a more-than-2-D image to 2-D via
`img[:, :, 0]`, print an error message when the image has rank below 2, add a
color-channel axis via `img[None, :, :]`, crop/resize to 224, and convert to a
torch tensor with `torch.from_numpy(img).unsqueeze(0)`.  Returns the printed
log together with either the produced tensor shape or the raised exception. -/
def get_input_img (rawShape : Shape) : List String × Except String Shape :=
  let img0 := xrvNormalizeShape rawShape
  let step1 := if 2 < img0.length then npIndexThirdZero img0 else Except.ok img0
  match step1 with
  | Except.error e => ([], Except.error e)
  | Except.ok img1 =>
    let log := if img1.length < 2 then [lowDimMsg] else []
    match npNewAxisSliceSlice img1 with
    | Except.error e => (log, Except.error e)
    | Except.ok img2 =>
      let img3 := xrvCropResize224 img2
      (log, Except.ok (1 :: img3))

/-- `torch.cat(tensors, dim=0)` on shapes: demands a nonempty list of positive
equal-rank shapes agreeing on every axis but 0, and sums axis 0. -/
def torchCatShapes : List Shape → Except String Shape
  | [] => Except.error "RuntimeError: torch.cat expected a non-empty list of Tensors"
  | s :: rest =>
    if s.length = 0 then
      Except.error "RuntimeError: zero-dimensional tensor cannot be concatenated"
    else if rest.all (fun t => decide (t.length = s.length) && decide (t.drop 1 = s.drop 1)) then
      Except.ok ((s.headD 0 + (rest.map (fun t => t.headD 0)).sum) :: s.drop 1)
    else
      Except.error "RuntimeError: Sizes of tensors must match except in dimension 0"

/-- Python list indexing `xs[i]`: `IndexError` when out of range. -/
def pyGet {α : Type} (xs : List α) (i : Nat) : Except String α :=
  match xs.get? i with
  | some x => Except.ok x
  | none => Except.error "IndexError: list index out of range"

/-- Modelled from the spec: `xrv.datasets.default_pathologies`, the fixed
18-entry pathology label set of the external torchxrayvision library. -/
def default_pathologies : List String :=
  ["Atelectasis", "Consolidation", "Infiltration", "Pneumothorax", "Edema",
   "Emphysema", "Fibrosis", "Effusion", "Pneumonia", "Pleural_Thickening",
   "Cardiomegaly", "Nodule", "Mass", "Hernia", "Lung Lesion", "Fracture",
   "Lung Opacity", "Enlarged Cardiomediastinum"]

/-- The environment variable guarding the data-parallel output combine. -/
def n300Key : String := "PYBUDA_N300_DATA_PARALLEL"

/-- The data-parallel combine step of the DenseNet demo: when the flag read by
`os.environ.get("PYBUDA_N300_DATA_PARALLEL", "0")` equals `"1"`, replace the
output list by the single tensor `torch.cat((output[0], output[1]), dim=0)`
(row concatenation of the first two outputs); otherwise leave it unchanged. -/
def dataParallelCombine (n300Flag : String) (output : List Mat) : Except String (List Mat) :=
  if n300Flag = "1" then
    match pyGet output 0, pyGet output 1 with
    | Except.ok t0, Except.ok t1 => Except.ok [t0 ++ t1]
    | Except.error e, _ => Except.error e
    | _, Except.error e => Except.error e
  else Except.ok output

/-- External collaborators of the DenseNet demo: the detected devices, the
shape of the downloaded sample image, and the inference oracle mapping the
submitted input-batch shape to the runtime's output tensors. -/
structure DensenetWorld where
  devices : List BackendDevice
  rawImage : Shape
  modelRun : Shape → List Mat

/-- The configuration section of `run_densenet_121_hf_xray_pytorch`: global
compiler-config mutations, the `PYBUDA_DISABLE_CONSTANT_FOLDING` environment
write, device detection, and the two device presets (first detected device
`Wormhole_B0` versus any other); no preset when no device is detected. -/
def densenetConfigure (w : DensenetWorld) (s0 : ProcState) : ProcState :=
  let cfg1 : CompilerConfig :=
    { s0.cfg with
      enable_tm_cpu_fallback := true
      enable_tvm_constant_prop := true
      cpu_fallback_ops := s0.cfg.cpu_fallback_ops ++ ["adv_index"] }
  let env1 := envSet s0.env "PYBUDA_DISABLE_CONSTANT_FOLDING" "1"
  match w.devices with
  | [] => ⟨env1, cfg1⟩
  | d :: _ =>
    if d = BackendDevice.Wormhole_B0 then
      ⟨env1, { cfg1 with balancer_policy := some "Ribbon",
                         default_df_override := some "Float16_b" }⟩
    else
      ⟨envSet env1 "PYBUDA_PAD_SPARSE_MM" "\x7b25:32\x7d",
       { cfg1 with balancer_policy := some "CNN" }⟩

/-- Input fetch, batching, model load, inference, data-parallel combine and
postprocessing of `run_densenet_121_hf_xray_pytorch`.  `n300Flag` is the value
`os.environ.get("PYBUDA_N300_DATA_PARALLEL", "0")` yields at the combine step.
Returns the events performed, the printed log, and either the final `preds`
mapping (`zip(xrv.datasets.default_pathologies, output[0]...numpy())`, i.e.
labels zipped against the rows of the first output tensor) or the exception
that ended the run. -/
def densenetBody (w : DensenetWorld) (n300Flag : String) (batch_size : Nat) :
    List Event × List String × Except String (List (String × List ℚ)) :=
  let fetched := get_input_img w.rawImage
  match fetched.2 with
  | Except.error e => ([Event.networkFetch imgUrl], fetched.1, Except.error e)
  | Except.ok imgShape =>
    match torchCatShapes (List.replicate batch_size imgShape) with
    | Except.error e => ([Event.networkFetch imgUrl], fetched.1, Except.error e)
    | Except.ok batchShape =>
      let trace := [Event.networkFetch imgUrl,
                    Event.modelLoad "densenet121-res224-all",
                    Event.runInference batchShape]
      let output0 := w.modelRun batchShape
      match dataParallelCombine n300Flag output0 with
      | Except.error e => (trace, fetched.1, Except.error e)
      | Except.ok output =>
        match pyGet output 0 with
        | Except.error e => (trace, fetched.1, Except.error e)
        | Except.ok out0 =>
          (trace ++ [Event.printOut], fetched.1,
           Except.ok (List.zip default_pathologies out0))

/-- The observable outcome of one DenseNet demo invocation. -/
structure DensenetRun where
  trace : List Event
  log : List String
  state : ProcState
  result : Except String (List (String × List ℚ))

/-- `run_densenet_121_hf_xray_pytorch(batch_size)`: set the global compiler
configuration, detect devices and apply a device preset, download and
preprocess the sample image, concatenate `batch_size` copies of it along
dim 0, load the model, run inference, optionally combine data-parallel
outputs, and zip the pathology labels against the rows of the first output. -/
def run_densenet_121_hf_xray_pytorch (w : DensenetWorld) (s0 : ProcState)
    (batch_size : Nat) : DensenetRun :=
  let s1 := densenetConfigure w s0
  let body := densenetBody w (envGetD s1.env n300Key "0") batch_size
  { trace := Event.deviceQuery :: body.1
    log := body.2.1
    state := s1
    result := body.2.2 }

/-- Keyword arguments the FLAN-T5 demo passes to the text2text pipeline. -/
structure GenArgs where
  max_length : Nat
  num_beams : Nat
  num_return_sequences : Nat
  no_repeat_ngram_size : Nat
  deriving DecidableEq, Repr

/-- One element of the pipeline's answer list: a dict with key
`generated_text`. -/
structure GenOut where
  generated_text : String
  deriving DecidableEq, Repr

/-- External collaborator of the FLAN-T5 demo: the pybuda text2text pipeline,
mapping the submitted prompt list and generation arguments to the answer
list. -/
structure FlanWorld where
  generate : List String → GenArgs → List GenOut

/-- The sample prompt of the FLAN-T5 demo (source variable `prefix_text`
before replication). -/
def flanPrompt : String := "A step by step recipe to make bolognese pasta:"

/-- The generation arguments of the FLAN-T5 demo's pipeline call. -/
def flanArgs : GenArgs := ⟨20, 1, 1, 2⟩

/-- The configuration section of `run_flan_t5_pybuda_pipeline`: seven
environment-variable writes and the global compiler-config mutations.  It
performs no device detection. -/
def flanConfigure (s0 : ProcState) : ProcState :=
  let e1 := envSet s0.env "PYBUDA_DISABLE_STREAM_OUTPUT" "1"
  let e2 := envSet e1 "PYBUDA_PAD_OUTPUT_BUFFER" "1"
  let e3 := envSet e2 "TT_BACKEND_MULTI_THREADED_PUSH" "1"
  let e4 := envSet e3 "PYBUDA_DISABLE_DYNAMIC_DRAM" "1"
  let e5 := envSet e4 "PYBUDA_FORCE_SEQUENTIAL" "1"
  let e6 := envSet e5 "PYBUDA_NLP_MANUAL_TARGET" "30000"
  let e7 := envSet e6 "TT_BACKEND_DRAM_POLLING_FREQUENCY" "64"
  let cfg : CompilerConfig :=
    { s0.cfg with
      enable_tvm_cpu_fallback := false
      default_df_override := some "Float16_b"
      default_dram_parameters := some false
      input_queues_on_host := true
      amp_light := true }
  ⟨e7, cfg⟩

/-- The observable outcome of one FLAN-T5 demo invocation. -/
structure FlanRun where
  trace : List Event
  state : ProcState
  submittedPrompts : List String
  submittedArgs : GenArgs
  result : Except String (List String)

/-- `run_flan_t5_pybuda_pipeline(variant, batch_size)`: configure, download
the model config, model and tokenizer from the hub, replicate the sample
prompt `batch_size` times, call the text2text pipeline with `max_length=20`,
`num_beams=1`, `num_return_sequences=1`, `no_repeat_ngram_size=2`, and report
`answer[sample_id]["generated_text"]` for every sample id below
`batch_size`. -/
def run_flan_t5_pybuda_pipeline (w : FlanWorld) (s0 : ProcState)
    (variant : String) (batch_size : Nat) : FlanRun :=
  let s1 := flanConfigure s0
  let promptList := List.replicate batch_size flanPrompt
  let answer := w.generate promptList flanArgs
  { trace := [Event.networkFetch variant, Event.networkFetch variant,
              Event.modelLoad variant, Event.networkFetch variant,
              Event.runInference [batch_size]]
    state := s1
    submittedPrompts := promptList
    submittedArgs := flanArgs
    result := (List.range batch_size).mapM
      (fun i => (pyGet answer i).map GenOut.generated_text) }

/-- One pytest test function of the `tests/` harness: its name, the fixture
parameters of its signature, its parametrized variant list (empty when the
test is not parametrized), and whether its call into the demo runner passes
the variant and the batch size. -/
structure TestFn where
  name : String
  fixtures : List String
  variants : List String
  passesVariant : Bool
  passesBatchSize : Bool
  deriving DecidableEq, Repr

/-- Variant list of `test_pytorch_deit.py`. -/
def deitVariants : List String :=
  ["facebook/deit-base-patch16-224", "facebook/deit-base-distilled-patch16-224",
   "facebook/deit-small-patch16-224", "facebook/deit-tiny-patch16-224"]

/-- Variant list of `test_pytorch_densenet.py`. -/
def densenetVariants : List String :=
  ["densenet121", "densenet161", "densenet169", "densenet201"]

/-- Variant lists of `test_pytorch_dpr.py`. -/
def dprVariantsCtx : List String :=
  ["facebook/dpr-ctx_encoder-single-nq-base", "facebook/dpr-ctx_encoder-multiset-base"]

/-- Question-encoder variant list of `test_pytorch_dpr.py`. -/
def dprVariantsQe : List String :=
  ["facebook/dpr-question_encoder-single-nq-base", "facebook/dpr-question_encoder-multiset-base"]

/-- Reader variant list of `test_pytorch_dpr.py`. -/
def dprVariantsReader : List String :=
  ["facebook/dpr-reader-single-nq-base", "facebook/dpr-reader-multiset-base"]

/-- First variant list of `test_pytorch_vgg.py`. -/
def vggVariants1 : List String :=
  ["vgg11", "vgg13", "vgg16", "vgg19", "vgg11_bn", "vgg13_bn", "vgg16_bn", "vgg19_bn"]

/-- Second variant list of `test_pytorch_vgg.py`. -/
def vggVariants2 : List String :=
  ["vgg11", "vgg13", "vgg16", "vgg19", "bn_vgg19", "bn_vgg19b"]

/-- Variant list of `test_pytorch_vit.py`. -/
def vitVariants : List String :=
  ["google/vit-base-patch16-224", "google/vit-large-patch16-224"]

/-- `test_mobilenetv2_ssd_1x1_tflite` of `test_tflite_mobilenet_ssd.py`: it
receives only the `clear_pybuda` and `test_device` fixtures and calls
`run_mobilenetv2_ssd_1x1_tflite()` with no arguments at all. -/
def mobilenetTest : TestFn :=
  ⟨"test_mobilenetv2_ssd_1x1_tflite", ["clear_pybuda", "test_device"], [], false, false⟩

/-- The DenseNet test of `test_pytorch_densenet.py`: parametrized over four
variants, it receives the cleanup, device and batch-size fixtures and passes
variant and batch size to `run_densenet_pytorch`. -/
def densenetTestFn : TestFn :=
  ⟨"test_densenet_pytorch",
   ["clear_pybuda", "test_device", "variant", "batch_size"], densenetVariants, true, true⟩

/-- The test functions of the `tests/` directory, transcribed file by file:
signature fixtures, parametrized variants, and the arguments each forwards to
its demo runner. -/
def testHarness : List TestFn :=
  [⟨"test_retinanet_onnx", ["clear_pybuda", "test_device", "batch_size"], [], false, true⟩,
   ⟨"test_deit_classify_224_hf_pytorch",
    ["clear_pybuda", "test_device", "variant", "batch_size"], deitVariants, true, true⟩,
   densenetTestFn,
   ⟨"test_densenet_121_hf_xray_pytorch",
    ["clear_pybuda", "test_device", "batch_size"], [], false, true⟩,
   ⟨"test_dpr_context_encoder_pytorch",
    ["clear_pybuda", "test_device", "variant", "batch_size"], dprVariantsCtx, true, true⟩,
   ⟨"test_dpr_question_encoder_pytorch",
    ["clear_pybuda", "test_device", "variant", "batch_size"], dprVariantsQe, true, true⟩,
   ⟨"test_dpr_reader_pytorch",
    ["clear_pybuda", "test_device", "variant", "batch_size"], dprVariantsReader, true, true⟩,
   ⟨"test_vgg_19_hf_pytorch",
    ["clear_pybuda", "test_device", "variant", "batch_size"], vggVariants1, true, true⟩,
   ⟨"test_vgg_bn19_timm_pytorch",
    ["clear_pybuda", "test_device", "variant", "batch_size"], vggVariants1, true, true⟩,
   ⟨"test_vgg_bn19_torchhub_pytorch",
    ["clear_pybuda", "test_device", "variant", "batch_size"], vggVariants1, true, true⟩,
   ⟨"test_vgg_osmr_pytorch",
    ["clear_pybuda", "test_device", "variant", "batch_size"], vggVariants2, true, true⟩,
   ⟨"test_vit_classify_224_hf_pytorch",
    ["clear_pybuda", "test_device", "variant", "batch_size"], vitVariants, true, true⟩,
   ⟨"test_vit_classify_224_hf_pytorch_1x1",
    ["clear_pybuda", "test_device", "variant", "batch_size"], vitVariants, true, true⟩,
   mobilenetTest]

/-- A row of in-range scores, as returned for each sample by the calibrated
X-ray classifier (one score per pathology). -/
def xrayRow : List ℚ := List.replicate 18 (1 / 2)

/-- A concrete DenseNet world: no accelerator detected, a 512×512 grayscale
sample image, and an inference oracle returning one output tensor with one
row of 18 in-range scores per batch element. -/
def w0 : DensenetWorld :=
  ⟨[], [512, 512], fun s => [List.replicate (s.headD 0) xrayRow]⟩

/-- A concrete FLAN-T5 world: the pipeline answers every call with a single
fixed generation. -/
def wf0 : FlanWorld := ⟨fun _ _ => [⟨"Simmer the sauce"⟩]⟩

/-! ### Helper lemmas about the embedded environment and preprocessing -/

/-- Filtering out the bindings of one key does not change the first binding
found for a different key. -/
theorem find?_filter_ne (l : List (String × String)) (k k' : String) (h : k' ≠ k) :
    (l.filter (fun p => p.1 != k)).find? (fun p => p.1 == k') =
      l.find? (fun p => p.1 == k') := by
  have hkk : (k == k') = false := by
    simp
    exact fun hc => h hc.symm
  induction l with
  | nil => rfl
  | cons a t ih =>
    by_cases hk : a.1 = k
    · simp [List.filter_cons, List.find?_cons, hk, hkk, ih]
    · by_cases hk' : a.1 = k'
      · simp [List.filter_cons, List.find?_cons, hk, hk', h, ih]
      · simp [List.filter_cons, List.find?_cons, hk, hk', ih]

/-- Looking up the key just written yields the written value. -/
theorem envLookup_envSet_self (e : PEnv) (k v : String) :
    envLookup (envSet e k v) k = some v := by
  simp [envLookup, envSet, List.find?_cons]

/-- Writing one key does not change the lookup of a different key. -/
theorem envLookup_envSet_ne (e : PEnv) (k k' v : String) (h : k' ≠ k) :
    envLookup (envSet e k v) k' = envLookup e k' := by
  have hhead : (k == k') = false := by
    simp
    exact fun hc => h hc.symm
  simp [envLookup, envSet, List.find?_cons, hhead, find?_filter_ne e.vars k k' h]

/-- The DenseNet configuration section only writes the constant-folding and
sparse-padding environment variables, so the data-parallel flag it later
reads is the one of the incoming state. -/
theorem envGetD_densenetConfigure_n300 (w : DensenetWorld) (s : ProcState) (d : String) :
    envGetD (densenetConfigure w s).env n300Key d = envGetD s.env n300Key d := by
  unfold densenetConfigure
  cases w.devices with
  | nil =>
    simp [envGetD, envLookup_envSet_ne _ _ _ _ (by decide : n300Key ≠ "PYBUDA_DISABLE_CONSTANT_FOLDING")]
  | cons hd tl =>
    by_cases hdev : hd = BackendDevice.Wormhole_B0 <;>
      simp [hdev, envGetD,
        envLookup_envSet_ne _ _ _ _ (by decide : n300Key ≠ "PYBUDA_PAD_SPARSE_MM"),
        envLookup_envSet_ne _ _ _ _ (by decide : n300Key ≠ "PYBUDA_DISABLE_CONSTANT_FOLDING")]

/-- Whatever the raw image, a successfully preprocessed input tensor has a
leading (batch) axis of size 1: it ends with `unsqueeze(0)`. -/
theorem get_input_img_ok_shape (raw : Shape) (lg : List String) (s : Shape)
    (h : get_input_img raw = (lg, Except.ok s)) : ∃ rest, s = 1 :: rest := by
  simp only [get_input_img, xrvNormalizeShape] at h
  split at h
  · simp at h
  · split at h
    · simp at h
    · simp at h
      exact ⟨_, h.2.symm⟩

/-- Concatenating `b ≥ 1` copies of a tensor of shape `1 :: rest` along dim 0
yields shape `b :: rest`. -/
theorem torchCat_replicate_cons (b : Nat) (rest : Shape) (hb : 1 ≤ b) :
    torchCatShapes (List.replicate b (1 :: rest)) = Except.ok (b :: rest) := by
  cases b with
  | zero => omega
  | succ n =>
    simp only [List.replicate_succ, torchCatShapes]
    rw [if_neg (by simp)]
    rw [if_pos]
    · simp [List.map_replicate, List.sum_replicate, smul_eq_mul, Nat.add_comm]
    · simp

/-- Once the image preprocessing succeeded and the batch is nonempty, the
DenseNet body reaches inference on the `b :: rest` batch tensor: its trace is
fetch, model load, inference, optionally followed by the final print. -/
theorem densenetBody_trace_shape (w : DensenetWorld) (n300 : String) (b : Nat)
    (lg : List String) (rest : Shape) (hb : 1 ≤ b)
    (h : get_input_img w.rawImage = (lg, Except.ok (1 :: rest))) :
    (densenetBody w n300 b).1 = [Event.networkFetch imgUrl,
        Event.modelLoad "densenet121-res224-all", Event.runInference (b :: rest)] ∨
    (densenetBody w n300 b).1 = [Event.networkFetch imgUrl,
        Event.modelLoad "densenet121-res224-all", Event.runInference (b :: rest),
        Event.printOut] := by
  unfold densenetBody
  rw [h]
  simp only [torchCat_replicate_cons b rest hb]
  cases hdp : dataParallelCombine n300 (w.modelRun (b :: rest)) with
  | error e => simp [hdp]
  | ok output =>
    cases hpg : pyGet output 0 with
    | error e => simp [hdp, hpg]
    | ok out0 => simp [hdp, hpg]

/-! ### The claims -/

/-- C1: the spec says the DenseNet-121 X-ray demo at `batch_size=1` builds a
result mapping whose key set is exactly the fixed 18-entry pathology label
set, with all values in `[0, 1]`.  Evaluating the embedded code at
`batch_size=1` with the runtime returning a `(1, 18)` output of in-range
scores shows the code instead zips all 18 labels against the ROWS of that
output, producing a single-entry mapping from the first label to the whole
18-score row. -/
theorem c1_xray_preds_eval :
    (run_densenet_121_hf_xray_pytorch w0 initState 1).result =
      Except.ok [("Atelectasis", xrayRow)] ∧
    default_pathologies.length = 18 ∧
    xrayRow.length = 18 ∧ (∀ q ∈ xrayRow, 0 ≤ q ∧ q ≤ 1) := by
  refine ⟨rfl, by decide, by decide, ?_⟩
  intro q hq
  have hqe : q = (1 : ℚ) / 2 := List.eq_of_mem_replicate hq
  rw [hqe]
  norm_num

/-- C2 (counterexample): invoking the DenseNet runner with `batch_size=0`
does NOT fail fast with a validation error before network or device calls:
the device query and the network fetch of the sample image are both
performed, and the failure is the `RuntimeError` of the empty `torch.cat`. -/
theorem c2_counterexample :
    Event.deviceQuery ∈ (run_densenet_121_hf_xray_pytorch w0 initState 0).trace ∧
    Event.networkFetch imgUrl ∈ (run_densenet_121_hf_xray_pytorch w0 initState 0).trace ∧
    (run_densenet_121_hf_xray_pytorch w0 initState 0).result =
      Except.error "RuntimeError: torch.cat expected a non-empty list of Tensors" := by
  have ht : (run_densenet_121_hf_xray_pytorch w0 initState 0).trace =
      [Event.deviceQuery, Event.networkFetch imgUrl] := rfl
  exact ⟨by rw [ht]; simp, by rw [ht]; simp, rfl⟩

/-- C2 (amended): neither demo runner validates `batch_size`.  With
`batch_size=0` the DenseNet demo still performs device detection and the
network fetch of the sample image and only then fails, with the runtime error
of the empty `torch.cat`; the FLAN-T5 demo completes, submitting an empty
prompt list to the pipeline after fetching the model from the hub. -/
theorem c2_no_batch_validation (w : DensenetWorld) (s0 : ProcState)
    (wf : FlanWorld) (v : String) (lg : List String) (s : Shape)
    (h : get_input_img w.rawImage = (lg, Except.ok s)) :
    Event.deviceQuery ∈ (run_densenet_121_hf_xray_pytorch w s0 0).trace ∧
    Event.networkFetch imgUrl ∈ (run_densenet_121_hf_xray_pytorch w s0 0).trace ∧
    (run_densenet_121_hf_xray_pytorch w s0 0).result =
      Except.error "RuntimeError: torch.cat expected a non-empty list of Tensors" ∧
    (run_flan_t5_pybuda_pipeline wf s0 v 0).submittedPrompts = [] ∧
    (run_flan_t5_pybuda_pipeline wf s0 v 0).result = Except.ok [] ∧
    Event.networkFetch v ∈ (run_flan_t5_pybuda_pipeline wf s0 v 0).trace := by
  unfold run_densenet_121_hf_xray_pytorch densenetBody
  rw [h]
  simp [run_flan_t5_pybuda_pipeline, torchCatShapes, List.mapM, List.mapM.loop,
    pure, Except.pure]

/-- C2 witness: the amended statement discharged at a concrete state, image
and pipeline. -/
theorem c2_no_batch_validation_witness :
    Event.deviceQuery ∈ (run_densenet_121_hf_xray_pytorch w0 initState 0).trace ∧
    Event.networkFetch imgUrl ∈ (run_densenet_121_hf_xray_pytorch w0 initState 0).trace ∧
    (run_densenet_121_hf_xray_pytorch w0 initState 0).result =
      Except.error "RuntimeError: torch.cat expected a non-empty list of Tensors" ∧
    (run_flan_t5_pybuda_pipeline wf0 initState "google/flan-t5-small" 0).submittedPrompts = [] ∧
    (run_flan_t5_pybuda_pipeline wf0 initState "google/flan-t5-small" 0).result = Except.ok [] ∧
    Event.networkFetch "google/flan-t5-small" ∈
      (run_flan_t5_pybuda_pipeline wf0 initState "google/flan-t5-small" 0).trace :=
  c2_no_batch_validation w0 initState wf0 "google/flan-t5-small" [] [1, 1, 224, 224] rfl

/-- C3: for every `batch_size ≥ 1`, each runner takes one input sample and
replicates it: the DenseNet demo fetches the sample image exactly once and
submits to inference the dim-0 concatenation of `b` copies of the
preprocessed `1 :: rest` tensor, a tensor of batch dimension `b`; the FLAN-T5
demo submits a list of `b` copies of the sample prompt. -/
theorem c3_batch_replication (w : DensenetWorld) (s0 : ProcState) (b : Nat)
    (lg : List String) (s : Shape) (wf : FlanWorld) (v : String)
    (hb : 1 ≤ b) (h : get_input_img w.rawImage = (lg, Except.ok s)) :
    (∃ rest, s = 1 :: rest ∧
      Event.runInference (b :: rest) ∈ (run_densenet_121_hf_xray_pytorch w s0 b).trace) ∧
    (run_densenet_121_hf_xray_pytorch w s0 b).trace.count (Event.networkFetch imgUrl) = 1 ∧
    (run_flan_t5_pybuda_pipeline wf s0 v b).submittedPrompts = List.replicate b flanPrompt ∧
    (run_flan_t5_pybuda_pipeline wf s0 v b).submittedPrompts.length = b := by
  obtain ⟨rest, hrest⟩ := get_input_img_ok_shape _ _ _ h
  subst hrest
  have htr := densenetBody_trace_shape w
    (envGetD (densenetConfigure w s0).env n300Key "0") b lg rest hb h
  have htrace : (run_densenet_121_hf_xray_pytorch w s0 b).trace =
      Event.deviceQuery :: (densenetBody w
        (envGetD (densenetConfigure w s0).env n300Key "0") b).1 := rfl
  refine ⟨⟨rest, rfl, ?_⟩, ?_, rfl, by simp [run_flan_t5_pybuda_pipeline]⟩
  · rw [htrace]
    rcases htr with htr | htr <;> rw [htr] <;> simp
  · rw [htrace]
    rcases htr with htr | htr <;> rw [htr] <;>
      simp [List.count_cons, imgUrl]

/-- C3 witness: the replication property discharged at `batch_size = 2` with
a concrete image, state and pipeline. -/
theorem c3_batch_replication_witness :
    (∃ rest, ([1, 1, 224, 224] : Shape) = 1 :: rest ∧
      Event.runInference (2 :: rest) ∈ (run_densenet_121_hf_xray_pytorch w0 initState 2).trace) ∧
    (run_densenet_121_hf_xray_pytorch w0 initState 2).trace.count (Event.networkFetch imgUrl) = 1 ∧
    (run_flan_t5_pybuda_pipeline wf0 initState "google/flan-t5-small" 2).submittedPrompts =
      List.replicate 2 flanPrompt ∧
    (run_flan_t5_pybuda_pipeline wf0 initState "google/flan-t5-small" 2).submittedPrompts.length = 2 :=
  c3_batch_replication w0 initState 2 [] [1, 1, 224, 224] wf0 "google/flan-t5-small"
    (by decide) rfl

/-- C4: when the fetched X-ray image has rank below 2, the preprocessing
error is logged and is fatal, not recovered: after printing the error
message, `img[None, :, :]` raises an `IndexError` that propagates, so the run
never reaches model load or inference and produces no result. -/
theorem c4_low_rank_fatal (w : DensenetWorld) (s0 : ProcState) (b : Nat)
    (h : w.rawImage.length < 2) :
    (run_densenet_121_hf_xray_pytorch w s0 b).log = [lowDimMsg] ∧
    (run_densenet_121_hf_xray_pytorch w s0 b).result =
      Except.error "IndexError: too many indices for array" ∧
    (run_densenet_121_hf_xray_pytorch w s0 b).trace =
      [Event.deviceQuery, Event.networkFetch imgUrl] := by
  have hge : ¬ 2 < w.rawImage.length := by omega
  have hn2 : ¬ 2 ≤ w.rawImage.length := by omega
  unfold run_densenet_121_hf_xray_pytorch densenetBody get_input_img
    xrvNormalizeShape npNewAxisSliceSlice
  simp [hge, h, hn2]

/-- A concrete world whose sample image decodes to a rank-1 array. -/
def w4 : DensenetWorld := ⟨[], [5], fun _ => []⟩

/-- C4 witness: the fatal low-rank behavior discharged at a concrete rank-1
image. -/
theorem c4_low_rank_fatal_witness :
    (run_densenet_121_hf_xray_pytorch w4 initState 1).log = [lowDimMsg] ∧
    (run_densenet_121_hf_xray_pytorch w4 initState 1).result =
      Except.error "IndexError: too many indices for array" ∧
    (run_densenet_121_hf_xray_pytorch w4 initState 1).trace =
      [Event.deviceQuery, Event.networkFetch imgUrl] :=
  c4_low_rank_fatal w4 initState 1 (by decide)

/-- When the data-parallel flag is not `"1"`, preprocessing succeeded, the
batch is nonempty and the runtime returned at least one output tensor, the
DenseNet body ends with the `preds` mapping: labels zipped against the rows
of the first output. -/
theorem densenetBody_ok (w : DensenetWorld) (n300 : String) (b : Nat)
    (lg : List String) (rest : Shape)
    (hne : n300 ≠ "1") (hb : 1 ≤ b)
    (h : get_input_img w.rawImage = (lg, Except.ok (1 :: rest)))
    (hm : w.modelRun (b :: rest) ≠ []) :
    (densenetBody w n300 b).2.2 =
      Except.ok (List.zip default_pathologies ((w.modelRun (b :: rest)).headD [])) := by
  unfold densenetBody
  rw [h]
  simp only [torchCat_replicate_cons b rest hb]
  rw [dataParallelCombine, if_neg hne]
  cases hmr : w.modelRun (b :: rest) with
  | nil => exact absurd hmr hm
  | cons x t => simp [pyGet]

/-- The value `os.environ.get` returns for the data-parallel flag equals
`"1"` exactly when the environment binds the variable to `"1"`; in
particular an unset variable defaults to `"0"` and no combine happens. -/
theorem envGetD_n300_eq_one (e : PEnv) :
    (envGetD e n300Key "0" = "1") ↔ (envLookup e n300Key = some "1") := by
  unfold envGetD
  cases hl : envLookup e n300Key <;> simp

/-- C5 (counterexample): the FLAN-T5 runner — one of the two demo runners
the claim quantifies over — performs no device detection at all: its trace
contains no device query and its configuration applies neither of the two
named balancer presets, so its configuration is not selected from two
presets keyed by the detected device type. -/
theorem c5_counterexample :
    (run_flan_t5_pybuda_pipeline wf0 initState "google/flan-t5-small" 1).trace.count
      Event.deviceQuery = 0 ∧
    (run_flan_t5_pybuda_pipeline wf0 initState "google/flan-t5-small" 1).state.cfg.balancer_policy
      = none :=
  ⟨rfl, rfl⟩

/-- C5 (amended): the DenseNet runner selects its device-specific
configuration from exactly two presets keyed on whether the first detected
device is `Wormhole_B0` (`Ribbon`/`Float16_b` versus `CNN`); when no
accelerator is detected it applies neither preset, the configuration step
completes without raising and the run still completes.  The FLAN-T5 runner
performs no device detection and applies one fixed configuration. -/
theorem c5_device_presets (w : DensenetWorld) (s0 : ProcState) (b : Nat)
    (lg : List String) (rest : Shape) (d : BackendDevice) (ds : List BackendDevice)
    (wf : FlanWorld) (v : String)
    (hd : d ≠ BackendDevice.Wormhole_B0)
    (h : get_input_img w.rawImage = (lg, Except.ok (1 :: rest)))
    (hb : 1 ≤ b)
    (hm : ∀ shp, w.modelRun shp ≠ [])
    (hn : envLookup s0.env n300Key = none) :
    (densenetConfigure { w with devices := [BackendDevice.Wormhole_B0] } s0).cfg.balancer_policy
        = some "Ribbon" ∧
    (densenetConfigure { w with devices := [BackendDevice.Wormhole_B0] } s0).cfg.default_df_override
        = some "Float16_b" ∧
    (densenetConfigure { w with devices := d :: ds } s0).cfg.balancer_policy = some "CNN" ∧
    (densenetConfigure { w with devices := [] } s0).cfg.balancer_policy
        = s0.cfg.balancer_policy ∧
    (run_densenet_121_hf_xray_pytorch { w with devices := [] } s0 b).result.isOk = true ∧
    (run_flan_t5_pybuda_pipeline wf s0 v b).trace.count Event.deviceQuery = 0 := by
  refine ⟨rfl, rfl, ?_, rfl, ?_, rfl⟩
  · simp [densenetConfigure, hd]
  · have hflag : envGetD (densenetConfigure { w with devices := [] } s0).env n300Key "0" = "0" := by
      rw [envGetD_densenetConfigure_n300]
      unfold envGetD
      rw [hn]
      rfl
    have hres : (run_densenet_121_hf_xray_pytorch { w with devices := [] } s0 b).result =
        (densenetBody { w with devices := [] }
          (envGetD (densenetConfigure { w with devices := [] } s0).env n300Key "0") b).2.2 := rfl
    rw [hres, hflag,
      densenetBody_ok { w with devices := [] } "0" b lg rest (by decide) hb h (hm _)]
    rfl

/-- C5 witness: the preset selection and no-device completion discharged at a
concrete world, state and pipeline. -/
theorem c5_device_presets_witness :
    (densenetConfigure { w0 with devices := [BackendDevice.Wormhole_B0] } initState).cfg.balancer_policy
        = some "Ribbon" ∧
    (densenetConfigure { w0 with devices := [BackendDevice.Wormhole_B0] } initState).cfg.default_df_override
        = some "Float16_b" ∧
    (densenetConfigure { w0 with devices := [BackendDevice.Grayskull] } initState).cfg.balancer_policy
        = some "CNN" ∧
    (densenetConfigure { w0 with devices := [] } initState).cfg.balancer_policy
        = initState.cfg.balancer_policy ∧
    (run_densenet_121_hf_xray_pytorch { w0 with devices := [] } initState 1).result.isOk = true ∧
    (run_flan_t5_pybuda_pipeline wf0 initState "google/flan-t5-small" 1).trace.count
      Event.deviceQuery = 0 :=
  c5_device_presets w0 initState 1 [] [1, 224, 224] BackendDevice.Grayskull [] wf0
    "google/flan-t5-small" (by decide) rfl (by decide)
    (fun shp => by simp [w0]) rfl

/-- C6 (counterexample): configuration state set during one invocation of the
DenseNet runner remains visible afterwards: starting from a fresh process,
after one run the environment still binds `PYBUDA_DISABLE_CONSTANT_FOLDING`
to `"1"` and the global compiler config keeps `enable_tm_cpu_fallback`,
so a later invocation in the same process starts from that state. -/
theorem c6_counterexample :
    envLookup initState.env "PYBUDA_DISABLE_CONSTANT_FOLDING" = none ∧
    envLookup (run_densenet_121_hf_xray_pytorch w0 initState 1).state.env
      "PYBUDA_DISABLE_CONSTANT_FOLDING" = some "1" ∧
    initState.cfg.enable_tm_cpu_fallback = false ∧
    (run_densenet_121_hf_xray_pytorch w0 initState 1).state.cfg.enable_tm_cpu_fallback = true :=
  ⟨rfl, rfl, rfl, rfl⟩

/-- C6 (amended): the run configuration is not discarded after the run: both
runners write it into the process-global environment and compiler config, and
those settings persist after the invocation returns — every later invocation
in the same process starts from the mutated state. -/
theorem c6_config_persists (w : DensenetWorld) (s0 : ProcState) (b : Nat)
    (wf : FlanWorld) (v : String) :
    envLookup (run_densenet_121_hf_xray_pytorch w s0 b).state.env
      "PYBUDA_DISABLE_CONSTANT_FOLDING" = some "1" ∧
    (run_densenet_121_hf_xray_pytorch w s0 b).state.cfg.enable_tm_cpu_fallback = true ∧
    envLookup (run_flan_t5_pybuda_pipeline wf s0 v b).state.env
      "PYBUDA_FORCE_SEQUENTIAL" = some "1" ∧
    (run_flan_t5_pybuda_pipeline wf s0 v b).state.cfg.input_queues_on_host = true := by
  have hds : (run_densenet_121_hf_xray_pytorch w s0 b).state = densenetConfigure w s0 := rfl
  have hfs : (run_flan_t5_pybuda_pipeline wf s0 v b).state = flanConfigure s0 := rfl
  refine ⟨?_, ?_, ?_, ?_⟩
  · rw [hds]
    unfold densenetConfigure
    cases w.devices with
    | nil => exact envLookup_envSet_self _ _ _
    | cons hd tl =>
      by_cases hdev : hd = BackendDevice.Wormhole_B0
      · simp only [hdev, if_pos rfl]
        exact envLookup_envSet_self _ _ _
      · simp only [if_neg hdev]
        rw [envLookup_envSet_ne _ _ _ _ (by decide)]
        exact envLookup_envSet_self _ _ _
  · rw [hds]
    unfold densenetConfigure
    cases w.devices with
    | nil => rfl
    | cons hd tl =>
      by_cases hdev : hd = BackendDevice.Wormhole_B0 <;> simp [hdev]
  · rw [hfs]
    unfold flanConfigure
    rw [envLookup_envSet_ne _ _ _ _ (by decide),
        envLookup_envSet_ne _ _ _ _ (by decide)]
    exact envLookup_envSet_self _ _ _
  · rw [hfs]
    rfl

/-- C7: invoking the DenseNet demo twice in sequence — the second call
starting from the process state the first one left behind — yields the same
result both times: same key set (pathology labels) and, the embedded runner
being deterministic given the device oracle, exactly equal values. -/
theorem c7_repeat_invocation (w : DensenetWorld) (s0 : ProcState) (b : Nat) :
    (run_densenet_121_hf_xray_pytorch w
        (run_densenet_121_hf_xray_pytorch w s0 b).state b).result =
      (run_densenet_121_hf_xray_pytorch w s0 b).result ∧
    Except.map (List.map Prod.fst)
        (run_densenet_121_hf_xray_pytorch w
          (run_densenet_121_hf_xray_pytorch w s0 b).state b).result =
      Except.map (List.map Prod.fst)
        (run_densenet_121_hf_xray_pytorch w s0 b).result := by
  have key : ∀ s : ProcState, (run_densenet_121_hf_xray_pytorch w s b).result =
      (densenetBody w (envGetD s.env n300Key "0") b).2.2 := by
    intro s
    show (densenetBody w (envGetD (densenetConfigure w s).env n300Key "0") b).2.2 = _
    rw [envGetD_densenetConfigure_n300]
  have hstate : (run_densenet_121_hf_xray_pytorch w s0 b).state = densenetConfigure w s0 := rfl
  have hmain : (run_densenet_121_hf_xray_pytorch w
      (run_densenet_121_hf_xray_pytorch w s0 b).state b).result =
      (run_densenet_121_hf_xray_pytorch w s0 b).result := by
    rw [key, key, hstate, envGetD_densenetConfigure_n300]
  exact ⟨hmain, by rw [hmain]⟩

/-- C8 (counterexample): not every test receives the three fixtures: the
MobileNet-SSD test of the harness receives only the cleanup and device
fixtures — no batch-size fixture — and passes no batch size to its runner. -/
theorem c8_counterexample :
    mobilenetTest ∈ testHarness ∧
    mobilenetTest.fixtures.contains "batch_size" = false ∧
    mobilenetTest.passesBatchSize = false := by
  refine ⟨?_, rfl, rfl⟩
  simp [testHarness]

/-- C8 (amended): every test of the harness except
`test_mobilenetv2_ssd_1x1_tflite` receives the cleanup-hook, device and
batch-size fixtures and passes the batch size to its demo runner,
passing the parametrized variant exactly when the test is parametrized. -/
theorem c8_fixture_wiring :
    ∀ t ∈ testHarness, t.name ≠ "test_mobilenetv2_ssd_1x1_tflite" →
      t.fixtures.contains "clear_pybuda" = true ∧
      t.fixtures.contains "test_device" = true ∧
      t.fixtures.contains "batch_size" = true ∧
      t.passesBatchSize = true ∧
      (t.variants ≠ [] → t.passesVariant = true) ∧
      (t.variants = [] → t.passesVariant = false) := by
  decide

/-- C8 witness: the fixture wiring discharged at the DenseNet test. -/
theorem c8_fixture_wiring_witness :
    densenetTestFn.fixtures.contains "clear_pybuda" = true ∧
    densenetTestFn.fixtures.contains "test_device" = true ∧
    densenetTestFn.fixtures.contains "batch_size" = true ∧
    densenetTestFn.passesBatchSize = true ∧
    (densenetTestFn.variants ≠ [] → densenetTestFn.passesVariant = true) ∧
    (densenetTestFn.variants = [] → densenetTestFn.passesVariant = false) :=
  c8_fixture_wiring densenetTestFn (by decide) (by decide)

/-- C9: the FLAN-T5-small demo at `batch_size=1` submits exactly the list
containing the prompt "A step by step recipe to make bolognese pasta:" with
`max_length=20` and `num_beams=1`; whenever the external pipeline answers
that call with one generation that is non-empty and differs from the prompt,
the demo's reported output is that single non-empty string distinct from the
prompt. -/
theorem c9_flan_generation (g : List String → GenArgs → List GenOut)
    (s0 : ProcState) (out : String)
    (hg : g [flanPrompt] flanArgs = [⟨out⟩])
    (h1 : out ≠ "") (h2 : out ≠ flanPrompt) :
    (run_flan_t5_pybuda_pipeline ⟨g⟩ s0 "google/flan-t5-small" 1).submittedPrompts
        = [flanPrompt] ∧
    (run_flan_t5_pybuda_pipeline ⟨g⟩ s0 "google/flan-t5-small" 1).submittedArgs.max_length = 20 ∧
    (run_flan_t5_pybuda_pipeline ⟨g⟩ s0 "google/flan-t5-small" 1).submittedArgs.num_beams = 1 ∧
    (run_flan_t5_pybuda_pipeline ⟨g⟩ s0 "google/flan-t5-small" 1).result = Except.ok [out] ∧
    out ≠ "" ∧ out ≠ flanPrompt := by
  refine ⟨rfl, rfl, rfl, ?_, h1, h2⟩
  show (List.range 1).mapM (fun i =>
      (pyGet (g (List.replicate 1 flanPrompt) flanArgs) i).map GenOut.generated_text) =
    Except.ok [out]
  have hrep : List.replicate 1 flanPrompt = [flanPrompt] := rfl
  rw [hrep, hg]
  rfl

/-- A concrete pipeline oracle answering every call with one fixed string. -/
def g0 : List String → GenArgs → List GenOut :=
  fun _ _ => [⟨"Simmer tomatoes and ground beef."⟩]

/-- C9 witness: the generation scenario discharged at a concrete pipeline. -/
theorem c9_flan_generation_witness :
    (run_flan_t5_pybuda_pipeline ⟨g0⟩ initState "google/flan-t5-small" 1).submittedPrompts
        = [flanPrompt] ∧
    (run_flan_t5_pybuda_pipeline ⟨g0⟩ initState "google/flan-t5-small" 1).submittedArgs.max_length = 20 ∧
    (run_flan_t5_pybuda_pipeline ⟨g0⟩ initState "google/flan-t5-small" 1).submittedArgs.num_beams = 1 ∧
    (run_flan_t5_pybuda_pipeline ⟨g0⟩ initState "google/flan-t5-small" 1).result =
      Except.ok ["Simmer tomatoes and ground beef."] ∧
    "Simmer tomatoes and ground beef." ≠ "" ∧
    "Simmer tomatoes and ground beef." ≠ flanPrompt :=
  c9_flan_generation g0 initState "Simmer tomatoes and ground beef." rfl
    (by decide) (by decide)

/-- C10: after the result get, the first two output tensors are concatenated
along dim 0 into a single combined output exactly when the environment
variable `PYBUDA_N300_DATA_PARALLEL` is bound to `"1"`; for any other binding
— in particular when the variable is unset and `os.environ.get` falls back to
the default `"0"` — the output sequence is left unchanged. -/
theorem c10_data_parallel_combine (e : PEnv) (t0 t1 : Mat) (rest : List Mat) :
    (dataParallelCombine (envGetD e n300Key "0") (t0 :: t1 :: rest) =
        Except.ok [t0 ++ t1] ↔ envLookup e n300Key = some "1") ∧
    dataParallelCombine (envGetD (⟨[]⟩ : PEnv) n300Key "0") (t0 :: t1 :: rest) =
      Except.ok (t0 :: t1 :: rest) := by
  constructor
  · rw [← envGetD_n300_eq_one e]
    constructor
    · intro hc
      by_cases hflag : envGetD e n300Key "0" = "1"
      · exact hflag
      · rw [dataParallelCombine, if_neg hflag] at hc
        simp only [Except.ok.injEq] at hc
        have hl := congrArg List.length hc
        simp only [List.length_cons, List.length_nil] at hl
        omega
    · intro hflag
      rw [dataParallelCombine, if_pos hflag]
      simp [pyGet]
  · rw [dataParallelCombine, if_neg (by decide)]

/-- Two small concrete output tensors. -/
def mA : Mat := [[0]]

/-- A second small concrete output tensor. -/
def mB : Mat := [[1]]

/-- C10 witness: the combine applied under a `"1"` binding and skipped under
an empty environment, at concrete outputs. -/
theorem c10_data_parallel_combine_witness :
    dataParallelCombine (envGetD (⟨[(n300Key, "1")]⟩ : PEnv) n300Key "0") [mA, mB] =
      Except.ok [mA ++ mB] ∧
    dataParallelCombine (envGetD (⟨[]⟩ : PEnv) n300Key "0") [mA, mB] =
      Except.ok [mA, mB] :=
  ⟨((c10_data_parallel_combine ⟨[(n300Key, "1")]⟩ mA mB []).1).mpr (by decide),
   (c10_data_parallel_combine ⟨[(n300Key, "1")]⟩ mA mB []).2⟩

end TTBudaDemos
